/-
  Verification of the WebRtcDashboard worker core against its specification.

  Shallow embedding of the Go worker (src/worker/main.go, src/worker/facedetector.go,
  src/worker/kafka_producer.go) and the RTSP frame distributor (src/unnamed/part_001).
  Time is modelled in milliseconds as Nat; Go maps are modelled as association lists;
  external I/O outcomes (subprocess launch, HTTP responses) are explicit parameters.
-/
import Mathlib

namespace WebRtcDashboard

/-! ## Circuit breaker (src/worker/main.go lines 66-126)

The Go `CircuitBreaker` struct carries FailureCount, LastFailureTime,
State ∈ {"closed","open","half-open"}, MaxFailures and ResetTimeout.
`time.Now()` / `time.Since` are modelled by passing the current time
(milliseconds, Nat) into each operation; `time.Since(t)` is `now - t`
(the Go monotonic clock never runs backwards, so `now ≥ t` at every call). -/

inductive CBState where
  | closed
  | open
  | halfOpen
deriving DecidableEq, Repr

structure CircuitBreaker where
  failureCount : Nat
  lastFailureTime : Nat
  state : CBState
  maxFailures : Nat
  resetTimeout : Nat
deriving DecidableEq, Repr

/-- `NewCircuitBreaker`: State "closed", MaxFailures 10, ResetTimeout 1 minute
(60000 ms).  FailureCount and LastFailureTime are Go zero values. -/
def NewCircuitBreaker : CircuitBreaker :=
  { failureCount := 0
    lastFailureTime := 0
    state := .closed
    maxFailures := 10
    resetTimeout := 60000 }

/-- `RecordFailure`: increment FailureCount, stamp LastFailureTime with now,
and open the breaker when FailureCount ≥ MaxFailures. -/
def RecordFailure (now : Nat) (cb : CircuitBreaker) : CircuitBreaker :=
  let fc := cb.failureCount + 1
  { cb with
    failureCount := fc
    lastFailureTime := now
    state := if fc ≥ cb.maxFailures then .open else cb.state }

/-- `RecordSuccess`: reset FailureCount to 0 and State to "closed". -/
def RecordSuccess (cb : CircuitBreaker) : CircuitBreaker :=
  { cb with failureCount := 0, state := .closed }

/-- `CanAttempt`: returns true when closed; otherwise, when
`time.Since(LastFailureTime) > ResetTimeout`, moves to "half-open" and
returns true; otherwise returns false.  Returns the decision together
with the (possibly mutated) breaker. -/
def CanAttempt (now : Nat) (cb : CircuitBreaker) : Bool × CircuitBreaker :=
  if cb.state = .closed then
    (true, cb)
  else if now - cb.lastFailureTime > cb.resetTimeout then
    (true, { cb with state := .halfOpen })
  else
    (false, cb)

/-- The three operations callers can perform on a breaker, each stamped
with the wall-clock time at which it runs. -/
inductive CBOp where
  | recordFailure (now : Nat)
  | recordSuccess
  | canAttempt (now : Nat)
deriving DecidableEq, Repr

/-- One step of the breaker under an operation (the state after the call). -/
def stepCB (op : CBOp) (cb : CircuitBreaker) : CircuitBreaker :=
  match op with
  | .recordFailure now => RecordFailure now cb
  | .recordSuccess => RecordSuccess cb
  | .canAttempt now => (CanAttempt now cb).2

/-- Run a sequence of operations left to right. -/
def runCB (ops : List CBOp) (cb : CircuitBreaker) : CircuitBreaker :=
  ops.foldl (fun s op => stepCB op s) cb

/-- `n` consecutive failures, all recorded at time `now`. -/
def failuresAt (now : Nat) (n : Nat) (cb : CircuitBreaker) : CircuitBreaker :=
  Nat.rec cb (fun _ s => RecordFailure now s) n

/-! ## Stream supervisor: `startReencodingProcess` (src/worker/main.go lines 1536-1670)

The Go function: (1) looks up or creates the camera's breaker; (2) returns a
circuit-open error when `CanAttempt` refuses; (3) under `processMutex`, cancels,
kills and deletes any existing `activeProcesses[cameraID]` entry; (4) invokes
`execCmd.Start()` — on failure it records a breaker failure and returns without
registering anything; (5) on success registers the new `ReencodingProcess`
under `cameraID`.  The registry is modelled as an association list
(cameraID, session id); `killed` collects the session ids whose
Cancel/Process.Kill was invoked; `launchCount` counts `execCmd.Start()` calls;
the OS outcome of `execCmd.Start()` is the explicit parameter `launchOk`. -/

structure WorkerState where
  activeProcesses : List (String × Nat)
  killed : List Nat
  breakers : String → CircuitBreaker
  nextSession : Nat
  launchCount : Nat

/-- The worker's initial global state: empty maps (a missing breaker behaves as
`NewCircuitBreaker`, exactly the lookup-or-create in the source). -/
def initWorkerState : WorkerState :=
  { activeProcesses := []
    killed := []
    breakers := fun _ => NewCircuitBreaker
    nextSession := 0
    launchCount := 0 }

/-- Store an updated breaker under a camera id. -/
def putBreaker (cam : String) (cb : CircuitBreaker) (m : String → CircuitBreaker) :
    String → CircuitBreaker :=
  fun c => if c = cam then cb else m c

inductive StartResult where
  | circuitOpen
  | launchFailed
  | started (sessionId : Nat)
deriving DecidableEq, Repr

/-- `startReencodingProcess cameraID now launchOk s`: one call at wall-clock
time `now`; `launchOk` is whether `execCmd.Start()` succeeds. -/
def startReencodingProcess (cameraID : String) (now : Nat) (launchOk : Bool)
    (s : WorkerState) : StartResult × WorkerState :=
  let cb := s.breakers cameraID
  let att := CanAttempt now cb
  let s1 := { s with breakers := putBreaker cameraID att.2 s.breakers }
  if att.1 = false then
    (.circuitOpen, s1)
  else
    let oldIds := (s1.activeProcesses.filter (fun p => p.1 == cameraID)).map Prod.snd
    let s2 := { s1 with
      activeProcesses := s1.activeProcesses.filter (fun p => !(p.1 == cameraID))
      killed := s1.killed ++ oldIds }
    let s3 := { s2 with launchCount := s2.launchCount + 1 }
    if launchOk then
      (.started s3.nextSession,
       { s3 with
         activeProcesses := s3.activeProcesses ++ [(cameraID, s3.nextSession)]
         nextSession := s3.nextSession + 1 })
    else
      (.launchFailed,
       { s3 with breakers := putBreaker cameraID (RecordFailure now att.2) s3.breakers })

/-- The sessions currently registered under a camera id. -/
def liveSessions (cam : String) (s : WorkerState) : List (String × Nat) :=
  s.activeProcesses.filter (fun p => p.1 == cam)

/-- A sequence of starts for one camera: each element is (time, launchOk). -/
def runStarts (cam : String) (calls : List (Nat × Bool)) (s : WorkerState) : WorkerState :=
  calls.foldl (fun st c => (startReencodingProcess cam c.1 c.2 st).2) s

/-! ## Gateway path cleanup (src/worker/main.go lines 1137-1223)

`cleanupMediaMTXPath` issues one DELETE: a transport error is an error; a
response with status ≠ 200 is an error unless the status is 404 ("path was
already deleted or didn't exist"), which is success; status 200 is success.
`forceCleanupMediaMTXPath` makes up to 3 attempts: a transport error retries
(after a sleep) unless it was the 3rd attempt; a response with status 200 or
404 is success; any other status retries, and after the 3rd attempt the loop
falls through to a terminal error.  The HTTP outcome of each attempt is an
explicit parameter. -/

inductive HTTPResult where
  | netErr
  | status (code : Nat)
deriving DecidableEq, Repr

inductive CleanupOutcome where
  | ok
  | err (msg : String)
deriving DecidableEq, Repr

def cleanupMediaMTXPath (pathName : String) (resp : HTTPResult) : CleanupOutcome :=
  match resp with
  | .netErr => .err ("failed to delete path " ++ pathName)
  | .status code =>
    if code ≠ 200 then
      if code = 404 then .ok
      else .err ("failed to delete path " ++ pathName ++ ": bad status")
    else .ok

/-- Attempt 3 (the last) of the force-cleanup loop. -/
def forceCleanupAttempt3 (pathName : String) (r : HTTPResult) : CleanupOutcome :=
  match r with
  | .netErr => .err ("failed to delete path after 3 attempts: " ++ pathName)
  | .status code =>
    if code = 200 ∨ code = 404 then .ok
    else .err ("failed to force cleanup path " ++ pathName ++ " after 3 attempts")

/-- Attempt 2 of the force-cleanup loop; retries into attempt 3. -/
def forceCleanupAttempt2 (pathName : String) (r2 r3 : HTTPResult) : CleanupOutcome :=
  match r2 with
  | .netErr => forceCleanupAttempt3 pathName r3
  | .status code =>
    if code = 200 ∨ code = 404 then .ok
    else forceCleanupAttempt3 pathName r3

/-- `forceCleanupMediaMTXPath`: up to three DELETE attempts with outcomes
`r1 r2 r3`. -/
def forceCleanupMediaMTXPath (pathName : String) (r1 r2 r3 : HTTPResult) : CleanupOutcome :=
  match r1 with
  | .netErr => forceCleanupAttempt2 pathName r2 r3
  | .status code =>
    if code = 200 ∨ code = 404 then .ok
    else forceCleanupAttempt2 pathName r2 r3

/-! ## RTSP frame keyframe classification (src/unnamed/part_001, `distributeFrame`)

Bytes are Nat values (< 256 at call sites); `& 0x1F` is `&&& 31`,
`& 0x80` is `&&& 128`.  The switch on `payload[0] & 0x1F`:
type 1 → not a keyframe; 5, 7, 8 → keyframe; 24 (STAP-A) → when the payload
has a byte at index 3 (skipping the STAP-A header and the 2-byte NALU size),
keyframe iff that first embedded NAL header's type is 5, 7 or 8;
28 (FU-A) → when byte 1 (the FU header) exists and its start bit (0x80) is
set, keyframe iff the embedded original NAL type is 5, 7 or 8; every other
type (and a continuation fragment) → not a keyframe. -/

def distributeFrameIsKeyFrame (payload : List Nat) : Bool :=
  match payload with
  | [] => false
  | b0 :: _ =>
    let nalType := b0 &&& 31
    if nalType = 1 then false
    else if nalType = 5 then true
    else if nalType = 7 then true
    else if nalType = 8 then true
    else if nalType = 24 then
      match payload[3]? with
      | some b3 =>
        let t := b3 &&& 31
        (t == 5) || (t == 7) || (t == 8)
      | none => false
    else if nalType = 28 then
      match payload[1]? with
      | some fu =>
        if fu &&& 128 ≠ 0 then
          let t := fu &&& 31
          (t == 5) || (t == 7) || (t == 8)
        else false
      | none => false
    else false

/-! ## Face detection filtering (src/worker/facedetector.go lines 70-210)

A detection is a `gocv`/`image.Rectangle`; `Dx = Max.X - Min.X`,
`Dy = Max.Y - Min.Y`.  The three gates after the cascade pass:
aspect ratio `float64(Dx)/float64(Dy)` must not be `< 0.75` nor `> 1.25`
(for the positive, bounded box sizes involved, float64 division cannot round
across either threshold, so the rational comparison is exact);
area `Dx*Dy` must not be `< 3600` nor `> 160000`; and the box must keep
`margin = 10` pixels from every image edge.  The cascade's raw output and the
image dimensions (`img.Cols()`, `img.Rows()`) are explicit parameters. -/

structure Rect where
  minX : Int
  minY : Int
  maxX : Int
  maxY : Int
deriving DecidableEq, Repr

def Rect.dx (r : Rect) : Int := r.maxX - r.minX

def Rect.dy (r : Rect) : Int := r.maxY - r.minY

/-- Gate 1: `aspectRatio < 0.75 || aspectRatio > 1.25` rejects. -/
def aspectRatioOK (r : Rect) : Bool :=
  let aspect : ℚ := (r.dx : ℚ) / (r.dy : ℚ)
  !(aspect < (3 : ℚ) / 4) && !(aspect > (5 : ℚ) / 4)

/-- Gate 2: `faceArea < 3600 || faceArea > 160000` rejects. -/
def faceSizeOK (r : Rect) : Bool :=
  let area := r.dx * r.dy
  !(area < 3600) && !(area > 160000)

/-- Gate 3: `Min.X < margin || Min.Y < margin || Max.X > imgWidth-margin ||
Max.Y > imgHeight-margin` rejects, with `margin = 10`. -/
def edgeMarginOK (imgWidth imgHeight : Int) (r : Rect) : Bool :=
  !(r.minX < 10) && !(r.minY < 10) && !(r.maxX > imgWidth - 10) && !(r.maxY > imgHeight - 10)

/-- All three gates of the validation loop in `DetectFaces`. -/
def validFace (imgWidth imgHeight : Int) (r : Rect) : Bool :=
  aspectRatioOK r && faceSizeOK r && edgeMarginOK imgWidth imgHeight r

/-- `DetectFaces`: the input-validation guard (`img.Empty() || img.Cols() < 50
|| img.Rows() < 50` → no detections) followed by the filtering loop; returns
`(len(validFaces), validFaces)`. -/
def DetectFaces (imgWidth imgHeight : Int) (raw : List Rect) : Nat × List Rect :=
  if imgWidth < 50 ∨ imgHeight < 50 then (0, [])
  else
    let validFaces := raw.filter (validFace imgWidth imgHeight)
    (validFaces.length, validFaces)

structure FaceDetectionAlert where
  cameraID : String
  cameraName : String
  faceCount : Nat
  confidence : ℚ
  detectedAt : Nat
  boundingBoxes : List Rect
deriving DecidableEq, Repr

/-- `ProcessFrameForFaceDetection`: runs `DetectFaces` and returns without any
alert when `faceCount == 0`; otherwise builds the `FaceDetectionAlert`
(confidence is the detector's threshold used as a proxy).  The JPEG/base64
thumbnail encoding is omitted; `none` means no alert is constructed or
published. -/
def ProcessFrameForFaceDetection (enabled : Bool) (cameraID cameraName : String)
    (threshold : ℚ) (now : Nat) (imgWidth imgHeight : Int) (raw : List Rect) :
    Option FaceDetectionAlert :=
  if !enabled then none
  else
    let det := DetectFaces imgWidth imgHeight raw
    if det.1 = 0 then none
    else some
      { cameraID := cameraID
        cameraName := cameraName
        faceCount := det.1
        confidence := threshold
        detectedAt := now
        boundingBoxes := det.2 }

/-! ## Kafka producer (src/worker/kafka_producer.go)

`NewKafkaProducer` builds a `kafka.Writer` with `BatchSize: 1`,
`RequiredAcks: kafka.RequireOne`, `Async: false`, `Compression: kafka.Gzip`.
`PublishAlert` marshals the alert and writes one message with
`Key: []byte(alert.CameraID)`, `Value: alertJSON`, `Time: alert.DetectedAt`. -/

inductive KafkaAcks where
  | requireNone
  | requireOne
  | requireAll
deriving DecidableEq, Repr

inductive KafkaCompression where
  | none
  | gzip
  | snappy
  | lz4
  | zstd
deriving DecidableEq, Repr

structure KafkaWriterConfig where
  batchSize : Nat
  requiredAcks : KafkaAcks
  async : Bool
  compression : KafkaCompression
deriving DecidableEq, Repr

/-- The writer configuration constructed by `NewKafkaProducer`. -/
def newKafkaProducerWriter : KafkaWriterConfig :=
  { batchSize := 1
    requiredAcks := .requireOne
    async := false
    compression := .gzip }

structure KafkaMessage where
  key : String
  value : FaceDetectionAlert
  time : Nat
deriving DecidableEq, Repr

/-- The `kafka.Message` built by `PublishAlert` (the JSON value is modelled by
the alert record itself). -/
def publishAlertMessage (alert : FaceDetectionAlert) : KafkaMessage :=
  { key := alert.cameraID
    value := alert
    time := alert.detectedAt }

/-! ## Path-name derivation (src/worker/main.go lines 1838-1858)

Go strings are byte slices; camera ids and path names here are ASCII, where
Go's byte slicing `pathName[:7]` / `pathName[7:]` coincides with the
character-list operations used below.  `getReencodedStreamURL` publishes to
`rtsp://localhost:8554/camera_<cameraID>`, so the gateway path name is
`"camera_" + cameraID`; `getCorrespondingCameraID` strips that leading marker
when `len(pathName) > 7 && pathName[:7] == "camera_"`, and otherwise returns
its input unchanged as a fallback. -/

def cameraPathMarker : List Char := ['c', 'a', 'm', 'e', 'r', 'a', '_']

/-- The path-name component of `getReencodedStreamURL`. -/
def getReencodedPathName (cameraID : List Char) : List Char :=
  cameraPathMarker ++ cameraID

def getCorrespondingCameraID (pathName : List Char) : List Char :=
  if pathName.length > 7 ∧ pathName.take 7 = cameraPathMarker then pathName.drop 7
  else pathName

/-! ## Helper lemmas -/

lemma failuresAt_succ (now n : Nat) (cb : CircuitBreaker) :
    failuresAt now (n + 1) cb = RecordFailure now (failuresAt now n cb) := rfl

lemma failuresAt_comm (now n : Nat) (cb : CircuitBreaker) :
    failuresAt now n (RecordFailure now cb) = RecordFailure now (failuresAt now n cb) := by
  induction n with
  | zero => rfl
  | succ m ih => rw [failuresAt_succ, failuresAt_succ, ih]

lemma failuresAt_failureCount (now n : Nat) (cb : CircuitBreaker) :
    (failuresAt now n cb).failureCount = cb.failureCount + n := by
  induction n with
  | zero => rfl
  | succ m ih =>
    rw [failuresAt_succ]
    simp [RecordFailure, ih]
    omega

lemma failuresAt_maxFailures (now n : Nat) (cb : CircuitBreaker) :
    (failuresAt now n cb).maxFailures = cb.maxFailures := by
  induction n with
  | zero => rfl
  | succ m ih => rw [failuresAt_succ]; simp [RecordFailure, ih]

lemma failuresAt_resetTimeout (now n : Nat) (cb : CircuitBreaker) :
    (failuresAt now n cb).resetTimeout = cb.resetTimeout := by
  induction n with
  | zero => rfl
  | succ m ih => rw [failuresAt_succ]; simp [RecordFailure, ih]

lemma failuresAt_lastFailureTime (now n : Nat) (cb : CircuitBreaker) (hn : 1 ≤ n) :
    (failuresAt now n cb).lastFailureTime = now := by
  cases n with
  | zero => omega
  | succ m => rw [failuresAt_succ]; simp [RecordFailure]

lemma failuresAt_state_open (now n : Nat) (cb : CircuitBreaker) (hn : 1 ≤ n)
    (hmax : cb.failureCount + n ≥ cb.maxFailures) :
    (failuresAt now n cb).state = .open := by
  cases n with
  | zero => omega
  | succ m =>
    rw [failuresAt_succ]
    simp only [RecordFailure, failuresAt_failureCount, failuresAt_maxFailures]
    rw [if_pos (by omega)]

lemma failuresAt_state_closed (now n : Nat) (cb : CircuitBreaker)
    (hclosed : cb.state = .closed) (hmax : cb.failureCount + n < cb.maxFailures) :
    (failuresAt now n cb).state = .closed := by
  induction n with
  | zero => exact hclosed
  | succ m ih =>
    rw [failuresAt_succ]
    simp only [RecordFailure, failuresAt_failureCount, failuresAt_maxFailures]
    rw [if_neg (by omega)]
    exact ih (by omega)

lemma putBreaker_apply (cam : String) (cb : CircuitBreaker) (m : String → CircuitBreaker) :
    putBreaker cam cb m cam = cb := by
  simp [putBreaker]

lemma start_eq_of_circuitOpen (cam : String) (t : Nat) (b : Bool) (s : WorkerState)
    (hc : (CanAttempt t (s.breakers cam)).1 = false) :
    startReencodingProcess cam t b s =
      (.circuitOpen,
       { s with breakers := putBreaker cam (CanAttempt t (s.breakers cam)).2 s.breakers }) := by
  simp [startReencodingProcess, hc]

lemma start_eq_of_launchOk (cam : String) (t : Nat) (s : WorkerState)
    (hc : (CanAttempt t (s.breakers cam)).1 = true) :
    startReencodingProcess cam t true s =
      (.started s.nextSession,
       { activeProcesses :=
           s.activeProcesses.filter (fun p => !(p.1 == cam)) ++ [(cam, s.nextSession)]
         killed :=
           s.killed ++ (s.activeProcesses.filter (fun p => p.1 == cam)).map Prod.snd
         breakers := putBreaker cam (CanAttempt t (s.breakers cam)).2 s.breakers
         nextSession := s.nextSession + 1
         launchCount := s.launchCount + 1 }) := by
  simp [startReencodingProcess, hc]

lemma start_eq_of_launchFail (cam : String) (t : Nat) (s : WorkerState)
    (hc : (CanAttempt t (s.breakers cam)).1 = true) :
    startReencodingProcess cam t false s =
      (.launchFailed,
       { activeProcesses := s.activeProcesses.filter (fun p => !(p.1 == cam))
         killed :=
           s.killed ++ (s.activeProcesses.filter (fun p => p.1 == cam)).map Prod.snd
         breakers :=
           putBreaker cam (RecordFailure t (CanAttempt t (s.breakers cam)).2)
             (putBreaker cam (CanAttempt t (s.breakers cam)).2 s.breakers)
         nextSession := s.nextSession
         launchCount := s.launchCount + 1 }) := by
  simp [startReencodingProcess, hc]

lemma canAttempt_closed (t : Nat) (cb : CircuitBreaker) (h : cb.state = .closed) :
    CanAttempt t cb = (true, cb) := by
  simp [CanAttempt, h]

lemma start_fail_breakers (cam : String) (t : Nat) (s : WorkerState)
    (h : (s.breakers cam).state = .closed) :
    ((startReencodingProcess cam t false s).2).breakers cam
      = RecordFailure t (s.breakers cam) := by
  rw [start_eq_of_launchFail cam t s (by rw [canAttempt_closed t _ h]),
    canAttempt_closed t _ h]
  exact putBreaker_apply ..

lemma runStarts_replicate_fail_breaker (cam : String) (tf : Nat) (n : Nat) :
    ∀ s : WorkerState,
      (∀ k, k < n → (failuresAt tf k (s.breakers cam)).state = .closed) →
      (runStarts cam (List.replicate n (tf, false)) s).breakers cam
        = failuresAt tf n (s.breakers cam) := by
  induction n with
  | zero => intro s _; rfl
  | succ m ih =>
    intro s h
    have h0 : (s.breakers cam).state = .closed := h 0 (Nat.succ_pos m)
    have hbr : ((startReencodingProcess cam tf false s).2).breakers cam
        = RecordFailure tf (s.breakers cam) := start_fail_breakers cam tf s h0
    have hrun : runStarts cam (List.replicate (m + 1) (tf, false)) s
        = runStarts cam (List.replicate m (tf, false))
            ((startReencodingProcess cam tf false s).2) := by
      rw [List.replicate_succ]; rfl
    rw [hrun, ih _ ?_, hbr, failuresAt_comm, ← failuresAt_succ]
    intro k hk
    rw [hbr, failuresAt_comm, ← failuresAt_succ]
    exact h (k + 1) (by omega)

lemma filter_key_then_other (l : List (String × Nat)) (cam : String) :
    (l.filter fun p => !(p.1 == cam)).filter (fun p => p.1 == cam) = [] := by
  induction l with
  | nil => rfl
  | cons hd tl ih =>
    cases hb : hd.1 == cam <;> simp [List.filter_cons, hb, ih]

lemma filter_key_idem (l : List (String × Nat)) (cam : String) :
    (l.filter fun p => !(p.1 == cam)).filter (fun p => !(p.1 == cam))
      = l.filter fun p => !(p.1 == cam) := by
  induction l with
  | nil => rfl
  | cons hd tl ih =>
    cases hb : hd.1 == cam <;> simp [List.filter_cons, hb, ih]

lemma key_not_mem_filtered (l : List (String × Nat)) (cam : String) :
    cam ∉ (l.filter fun p => !(p.1 == cam)).map Prod.fst := by
  intro hmem
  obtain ⟨p, hp, hfst⟩ := List.mem_map.mp hmem
  have h2 := (List.mem_filter.mp hp).2
  rw [hfst] at h2
  simp at h2

lemma filtered_keys_nodup (l : List (String × Nat)) (cam : String)
    (h : (l.map Prod.fst).Nodup) :
    ((l.filter fun p => !(p.1 == cam)).map Prod.fst).Nodup :=
  ((List.filter_sublist l).map Prod.fst).nodup h

lemma keys_nodup_after_replace (l : List (String × Nat)) (cam : String) (n : Nat)
    (h : (l.map Prod.fst).Nodup) :
    (((l.filter fun p => !(p.1 == cam)) ++ [(cam, n)]).map Prod.fst).Nodup := by
  rw [List.map_append]
  refine List.Nodup.append (filtered_keys_nodup l cam h) (by simp) ?_
  intro a ha hb
  simp only [List.map_cons, List.map_nil, List.mem_singleton] at hb
  subst hb
  exact key_not_mem_filtered l _ ha

lemma start_preserves_keysNodup (cam : String) (t : Nat) (b : Bool) (s : WorkerState)
    (h : (s.activeProcesses.map Prod.fst).Nodup) :
    ((((startReencodingProcess cam t b s).2).activeProcesses.map Prod.fst).Nodup) := by
  by_cases hc : (CanAttempt t (s.breakers cam)).1 = false
  · rw [start_eq_of_circuitOpen cam t b s hc]
    exact h
  · have hc' : (CanAttempt t (s.breakers cam)).1 = true := by
      revert hc; cases (CanAttempt t (s.breakers cam)).1 <;> simp
    cases b
    · rw [start_eq_of_launchFail cam t s hc']
      exact filtered_keys_nodup _ cam h
    · rw [start_eq_of_launchOk cam t s hc']
      exact keys_nodup_after_replace _ cam _ h

/-! ## Claim theorems -/

/-- C1: starting the same camera twice in sequence (both launches succeeding,
breaker closed) leaves exactly one live session registered under that camera
ID — the second one — while the session registered by the first start has been
cancelled/killed (its id lands in `killed`) and removed before the new one was
registered; and every start preserves uniqueness of camera IDs in the
registry, so at most one session is registered per camera at any instant. -/
theorem start_twice_single_live_session (s : WorkerState) (cam : String) (t1 t2 : Nat)
    (hclosed : (s.breakers cam).state = .closed)
    (hnodup : (s.activeProcesses.map Prod.fst).Nodup) :
    liveSessions cam
        ((startReencodingProcess cam t2 true
          ((startReencodingProcess cam t1 true s).2)).2)
      = [(cam, s.nextSession + 1)]
    ∧ s.nextSession ∈
        ((startReencodingProcess cam t2 true
          ((startReencodingProcess cam t1 true s).2)).2).killed
    ∧ ((((startReencodingProcess cam t2 true
          ((startReencodingProcess cam t1 true s).2)).2).activeProcesses.map
            Prod.fst).Nodup)
    ∧ (∀ (s' : WorkerState) (t : Nat) (b : Bool),
        ((s'.activeProcesses.map Prod.fst).Nodup) →
        ((((startReencodingProcess cam t b s').2).activeProcesses.map Prod.fst).Nodup)) := by
  have hatt1 : CanAttempt t1 (s.breakers cam) = (true, s.breakers cam) :=
    canAttempt_closed t1 _ hclosed
  have e1 := start_eq_of_launchOk cam t1 s (by rw [hatt1])
  have h1breaker : (((startReencodingProcess cam t1 true s).2).breakers cam)
      = s.breakers cam := by
    rw [e1]
    simp only [hatt1]
    exact putBreaker_apply ..
  have hatt2 : CanAttempt t2 (((startReencodingProcess cam t1 true s).2).breakers cam)
      = (true, ((startReencodingProcess cam t1 true s).2).breakers cam) := by
    rw [h1breaker]
    exact canAttempt_closed t2 _ hclosed
  have e2 := start_eq_of_launchOk cam t2 ((startReencodingProcess cam t1 true s).2)
    (by rw [hatt2])
  refine ⟨?_, ?_, ?_, fun s' t b h => start_preserves_keysNodup cam t b s' h⟩
  · rw [liveSessions, e2, e1]
    simp only [List.filter_append, filter_key_idem, filter_key_then_other]
    simp
  · rw [e2, e1]
    simp only [List.filter_append, filter_key_then_other]
    simp
  · rw [e2, e1]
    simp only [List.filter_append, filter_key_idem]
    have : ((s.activeProcesses.filter fun p => !(p.1 == cam))
        ++ List.filter (fun p => !(p.1 == cam)) [(cam, s.nextSession)])
        = s.activeProcesses.filter fun p => !(p.1 == cam) := by
      simp
    rw [this]
    exact keys_nodup_after_replace _ cam _ hnodup

/-- Witness for C1: two starts of "cam1" from the initial worker state. -/
theorem start_twice_single_live_session_witness :
    liveSessions "cam1"
        ((startReencodingProcess "cam1" 1 true
          ((startReencodingProcess "cam1" 0 true initWorkerState).2)).2)
      = [("cam1", 1)]
    ∧ (0 : Nat) ∈
        ((startReencodingProcess "cam1" 1 true
          ((startReencodingProcess "cam1" 0 true initWorkerState).2)).2).killed := by
  have h := start_twice_single_live_session initWorkerState "cam1" 0 1 rfl (by decide)
  exact ⟨h.1, h.2.1⟩

/-- C2: For every per-camera circuit breaker, under every
RecordFailure/RecordSuccess/CanAttempt operation (hence under every sequence of
them, since the statement holds at every reachable state): the state
transitions to open only when failureCount ≥ maxFailures; the state transitions
to half-open only through a CanAttempt call made strictly more than
resetTimeout after lastFailureTime; and any recorded success resets
failureCount to 0 and the state to closed. -/
theorem circuitBreaker_transition_invariant (cb : CircuitBreaker) (op : CBOp) :
    (((stepCB op cb).state = .open ∧ cb.state ≠ .open) →
      (stepCB op cb).failureCount ≥ (stepCB op cb).maxFailures)
    ∧ (((stepCB op cb).state = .halfOpen ∧ cb.state ≠ .halfOpen) →
      ∃ now, op = .canAttempt now ∧ now - cb.lastFailureTime > cb.resetTimeout)
    ∧ (op = .recordSuccess →
      (stepCB op cb).failureCount = 0 ∧ (stepCB op cb).state = .closed) := by
  refine ⟨?_, ?_, ?_⟩
  · rintro ⟨hopen, hne⟩
    cases op with
    | recordFailure now =>
      simp only [stepCB, RecordFailure] at hopen ⊢
      by_cases h : cb.failureCount + 1 ≥ cb.maxFailures
      · simpa using h
      · rw [if_neg h] at hopen
        exact absurd hopen hne
    | recordSuccess =>
      simp [stepCB, RecordSuccess] at hopen
    | canAttempt now =>
      simp only [stepCB, CanAttempt] at hopen
      split at hopen
      · exact absurd hopen hne
      · split at hopen
        · simp at hopen
        · exact absurd hopen hne
  · rintro ⟨hhalf, hne⟩
    cases op with
    | recordFailure now =>
      simp only [stepCB, RecordFailure] at hhalf
      split at hhalf
      · simp at hhalf
      · exact absurd hhalf hne
    | recordSuccess =>
      simp [stepCB, RecordSuccess] at hhalf
    | canAttempt now =>
      refine ⟨now, rfl, ?_⟩
      simp only [stepCB, CanAttempt] at hhalf
      split at hhalf
      · exact absurd hhalf hne
      · split at hhalf
        · assumption
        · exact absurd hhalf hne
  · rintro rfl
    exact ⟨rfl, rfl⟩

/-- Witness for C2 at concrete inputs: a 9-failure closed breaker opened by a
10th failure, a timed-out open breaker half-opened by CanAttempt, and a
recorded success. -/
theorem circuitBreaker_transition_invariant_witness :
    ((stepCB (.recordFailure 5)
        { failureCount := 9, lastFailureTime := 0, state := .closed,
          maxFailures := 10, resetTimeout := 60000 }).failureCount ≥ 10)
    ∧ (∃ now, CBOp.canAttempt 70000 = .canAttempt now ∧
        now - (failuresAt 0 10 NewCircuitBreaker).lastFailureTime >
          (failuresAt 0 10 NewCircuitBreaker).resetTimeout)
    ∧ ((stepCB .recordSuccess NewCircuitBreaker).failureCount = 0 ∧
        (stepCB .recordSuccess NewCircuitBreaker).state = .closed) := by
  refine ⟨?_, ?_, ?_⟩
  · have h := (circuitBreaker_transition_invariant
      { failureCount := 9, lastFailureTime := 0, state := .closed,
        maxFailures := 10, resetTimeout := 60000 } (.recordFailure 5)).1
    exact h ⟨by decide, by decide⟩
  · have h := (circuitBreaker_transition_invariant
      (failuresAt 0 10 NewCircuitBreaker) (.canAttempt 70000)).2.1
    exact h ⟨by decide, by decide⟩
  · exact (circuitBreaker_transition_invariant NewCircuitBreaker .recordSuccess).2.2 rfl

/-- C3 counterexample: the claim says that once resetTimeout has elapsed,
`CanAttempt()` returns true exactly once before a recorded success.  In the
code, after 10 failures at time 0 and with the timeout elapsed, two consecutive
`CanAttempt` calls with no intervening success both return true. -/
theorem canAttempt_not_exactly_once :
    (CanAttempt 60001 (failuresAt 0 10 NewCircuitBreaker)).1 = true
    ∧ (CanAttempt 60002
        ((CanAttempt 60001 (failuresAt 0 10 NewCircuitBreaker)).2)).1 = true := by
  decide

/-- C3 (amended): after at least maxFailures consecutive recorded failures
(the last at time `tf`), `CanAttempt` returns false while at most resetTimeout
has elapsed since `tf`; once strictly more than resetTimeout has elapsed it
returns true and moves to half-open, and it KEEPS returning true on later
calls (no intervening failure or success) — not exactly once; a recorded
success then resets the count to 0 and the state to closed. -/
theorem canAttempt_after_failures (cb0 : CircuitBreaker) (tf n : Nat)
    (hn : 1 ≤ n) (hmax : cb0.failureCount + n ≥ cb0.maxFailures) :
    (∀ t, t - tf ≤ cb0.resetTimeout →
      (CanAttempt t (failuresAt tf n cb0)).1 = false)
    ∧ (∀ t, t - tf > cb0.resetTimeout →
      (CanAttempt t (failuresAt tf n cb0)).1 = true
      ∧ (CanAttempt t (failuresAt tf n cb0)).2.state = .halfOpen)
    ∧ (∀ t t', t - tf > cb0.resetTimeout → t ≤ t' →
      (CanAttempt t' (CanAttempt t (failuresAt tf n cb0)).2).1 = true)
    ∧ (∀ t,
      (RecordSuccess (CanAttempt t (failuresAt tf n cb0)).2).failureCount = 0
      ∧ (RecordSuccess (CanAttempt t (failuresAt tf n cb0)).2).state = .closed) := by
  have hstate : (failuresAt tf n cb0).state = .open := failuresAt_state_open tf n cb0 hn hmax
  have hlast : (failuresAt tf n cb0).lastFailureTime = tf :=
    failuresAt_lastFailureTime tf n cb0 hn
  have hrt : (failuresAt tf n cb0).resetTimeout = cb0.resetTimeout :=
    failuresAt_resetTimeout tf n cb0
  refine ⟨?_, ?_, ?_, ?_⟩
  · intro t ht
    simp only [CanAttempt, hstate, hlast, hrt]
    rw [if_neg (by simp), if_neg (by omega)]
  · intro t ht
    simp only [CanAttempt, hstate, hlast, hrt]
    rw [if_neg (by simp), if_pos (by omega)]
    exact ⟨rfl, rfl⟩
  · intro t t' ht htt
    have h2 : (CanAttempt t (failuresAt tf n cb0)).2 =
        { failuresAt tf n cb0 with state := .halfOpen } := by
      simp only [CanAttempt, hstate, hlast, hrt]
      rw [if_neg (by simp), if_pos (by omega)]
    rw [h2]
    simp only [CanAttempt]
    rw [if_neg (by simp), if_pos (by simp only [hlast, hrt]; omega)]
  · intro t
    exact ⟨rfl, rfl⟩

/-- C4 counterexample: the claim says five consecutive launch failures open the
breaker and make the next Start fail with the circuit-open error without
launching a subprocess.  In the code `NewCircuitBreaker` sets MaxFailures to
10: after exactly five failed launches for "cam2" the breaker is still closed,
and the next Start proceeds to launch (launchCount goes from 5 to 6) and
registers a session instead of returning the circuit-open error. -/
theorem fiveFailures_does_not_open_breaker :
    ((runStarts "cam2" [(0, false), (0, false), (0, false), (0, false), (0, false)]
        initWorkerState).breakers "cam2").state = .closed
    ∧ (startReencodingProcess "cam2" 0 true
        (runStarts "cam2" [(0, false), (0, false), (0, false), (0, false), (0, false)]
          initWorkerState)).1 = .started 0
    ∧ (startReencodingProcess "cam2" 0 true
        (runStarts "cam2" [(0, false), (0, false), (0, false), (0, false), (0, false)]
          initWorkerState)).2.launchCount = 6 := by
  decide

/-- C4 (amended): TEN consecutive launch failures for a camera (MaxFailures is
10 in `NewCircuitBreaker`) open its circuit breaker, after which — while at
most ResetTimeout (60000 ms) has elapsed since the last failure — Start for
that camera fails immediately with the distinct circuit-open result and no
subprocess is launched (launchCount unchanged) and nothing is registered or
created for that attempt (activeProcesses and nextSession unchanged). -/
theorem tenFailures_circuitOpen_blocks_start (s : WorkerState) (cam : String)
    (tf t : Nat) (b : Bool)
    (hfresh : s.breakers cam = NewCircuitBreaker)
    (ht : t - tf ≤ 60000) :
    ((runStarts cam (List.replicate 10 (tf, false)) s).breakers cam).state = .open
    ∧ (startReencodingProcess cam t b
        (runStarts cam (List.replicate 10 (tf, false)) s)).1 = .circuitOpen
    ∧ (startReencodingProcess cam t b
        (runStarts cam (List.replicate 10 (tf, false)) s)).2.activeProcesses
      = (runStarts cam (List.replicate 10 (tf, false)) s).activeProcesses
    ∧ (startReencodingProcess cam t b
        (runStarts cam (List.replicate 10 (tf, false)) s)).2.launchCount
      = (runStarts cam (List.replicate 10 (tf, false)) s).launchCount
    ∧ (startReencodingProcess cam t b
        (runStarts cam (List.replicate 10 (tf, false)) s)).2.nextSession
      = (runStarts cam (List.replicate 10 (tf, false)) s).nextSession := by
  have hbr : (runStarts cam (List.replicate 10 (tf, false)) s).breakers cam
      = failuresAt tf 10 NewCircuitBreaker := by
    rw [runStarts_replicate_fail_breaker cam tf 10 s ?_, hfresh]
    intro k hk
    rw [hfresh]
    exact failuresAt_state_closed tf k NewCircuitBreaker rfl (by simp [NewCircuitBreaker]; omega)
  have hopen : ((runStarts cam (List.replicate 10 (tf, false)) s).breakers cam).state
      = .open := by
    rw [hbr]
    exact failuresAt_state_open tf 10 NewCircuitBreaker (by omega) (by simp [NewCircuitBreaker])
  have hcfalse : (CanAttempt t
      ((runStarts cam (List.replicate 10 (tf, false)) s).breakers cam)).1 = false := by
    rw [hbr]
    simp only [CanAttempt,
      failuresAt_state_open tf 10 NewCircuitBreaker (by omega) (by simp [NewCircuitBreaker]),
      failuresAt_lastFailureTime tf 10 NewCircuitBreaker (by omega),
      failuresAt_resetTimeout tf 10 NewCircuitBreaker]
    rw [if_neg (by simp), if_neg (by simp [NewCircuitBreaker]; omega)]
  rw [start_eq_of_circuitOpen cam t b _ hcfalse]
  exact ⟨hopen, rfl, by simp, by simp, by simp⟩

/-- Witness for C4's amended theorem: ten failed launches for "cam2" at time
0 from the initial worker state, then a blocked start at t = 1000 ms. -/
theorem tenFailures_circuitOpen_blocks_start_witness :
    ((runStarts "cam2" (List.replicate 10 (0, false)) initWorkerState).breakers "cam2").state
      = .open
    ∧ (startReencodingProcess "cam2" 1000 true
        (runStarts "cam2" (List.replicate 10 (0, false)) initWorkerState)).1 = .circuitOpen := by
  have h := tenFailures_circuitOpen_blocks_start initWorkerState "cam2" 0 1000 true
    rfl (by decide)
  exact ⟨h.1, h.2.1⟩

/-- Witness for C3's amended theorem at a fresh breaker with 10 failures at
time 0, probed at 70000 and 70001 ms. -/
theorem canAttempt_after_failures_witness :
    ((CanAttempt 60000 (failuresAt 0 10 NewCircuitBreaker)).1 = false)
    ∧ ((CanAttempt 70000 (failuresAt 0 10 NewCircuitBreaker)).1 = true)
    ∧ ((CanAttempt 70001
        (CanAttempt 70000 (failuresAt 0 10 NewCircuitBreaker)).2).1 = true)
    ∧ ((RecordSuccess
        (CanAttempt 70000 (failuresAt 0 10 NewCircuitBreaker)).2).state = .closed) := by
  have h := canAttempt_after_failures NewCircuitBreaker 0 10 (by decide) (by decide)
  exact ⟨h.1 60000 (by decide), (h.2.1 70000 (by decide)).1,
    h.2.2.1 70000 70001 (by decide) (by decide), (h.2.2.2 70000).2⟩

/-- C5: per-packet keyframe classification in `distributeFrame`.  For every
non-empty payload `b0 :: rest` with `t = b0 & 0x1F`: t ∈ {5,7,8} is a
keyframe; t = 1 is not; for t = 24 (STAP-A), whenever the first embedded NAL
header (payload byte 3) exists, the packet is a keyframe iff that header's
type is 5, 7 or 8; for t = 28 (FU-A), whenever the FU header (payload byte 1)
exists, the packet is a keyframe iff the header's start bit (0x80) is set and
the embedded original NAL type is 5, 7 or 8 — in particular a continuation
fragment (start bit clear) is never classified as a keyframe. -/
theorem distributeFrame_keyframe_classification (b0 : Nat) (rest : List Nat) :
    (((b0 &&& 31) = 5 ∨ (b0 &&& 31) = 7 ∨ (b0 &&& 31) = 8) →
      distributeFrameIsKeyFrame (b0 :: rest) = true)
    ∧ ((b0 &&& 31) = 1 → distributeFrameIsKeyFrame (b0 :: rest) = false)
    ∧ ((b0 &&& 31) = 24 → ∀ b3, (b0 :: rest)[3]? = some b3 →
        (distributeFrameIsKeyFrame (b0 :: rest) = true ↔
          ((b3 &&& 31) = 5 ∨ (b3 &&& 31) = 7 ∨ (b3 &&& 31) = 8)))
    ∧ ((b0 &&& 31) = 28 → ∀ fu, (b0 :: rest)[1]? = some fu →
        (distributeFrameIsKeyFrame (b0 :: rest) = true ↔
          (fu &&& 128 ≠ 0 ∧
            ((fu &&& 31) = 5 ∨ (fu &&& 31) = 7 ∨ (fu &&& 31) = 8)))) := by
  refine ⟨?_, ?_, ?_, ?_⟩
  · rintro (h | h | h) <;>
      simp [distributeFrameIsKeyFrame, h]
  · intro h
    simp [distributeFrameIsKeyFrame, h]
  · intro h b3 hb3
    rw [distributeFrameIsKeyFrame]
    simp only [h, hb3]
    norm_num
    tauto
  · intro h fu hfu
    rw [distributeFrameIsKeyFrame]
    simp only [h, hfu]
    norm_num
    by_cases hs : fu &&& 128 = 0
    · simp [hs]
    · simp [hs]
      tauto

/-- Witness for C5 at concrete packets: a STAP-A packet whose first embedded
NAL is an IDR slice, and an FU-A continuation fragment. -/
theorem distributeFrame_keyframe_classification_witness :
    ((24 &&& 31) = 24 ∧ ([24, 0, 1, 101])[3]? = some 101
      ∧ distributeFrameIsKeyFrame [24, 0, 1, 101] = true)
    ∧ ((28 &&& 31) = 28 ∧ ([28, 5])[1]? = some 5
      ∧ distributeFrameIsKeyFrame [28, 5] = false) := by
  refine ⟨⟨by decide, by decide, ?_⟩, ⟨by decide, by decide, ?_⟩⟩
  · exact ((distributeFrame_keyframe_classification 24 [0, 1, 101]).2.2.1
      (by decide) 101 (by decide)).mpr (by decide)
  · have h := ((distributeFrame_keyframe_classification 28 [5]).2.2.2
      (by decide) 5 (by decide))
    revert h
    cases hk : distributeFrameIsKeyFrame [28, 5]
    · intro _; rfl
    · intro h
      exact absurd ((h.mp rfl).1) (by decide)

/-- C7: gateway path cleanup is idempotent — when the delete endpoint reports
HTTP 404 (path does not exist), cleanup returns success, not an error, in both
the normal variant and the forced multi-attempt variant (whether the 404
arrives on the first attempt or on the last attempt after transient
failures). -/
theorem cleanup_notFound_success (pathName : String) (r2 r3 : HTTPResult) :
    cleanupMediaMTXPath pathName (.status 404) = .ok
    ∧ forceCleanupMediaMTXPath pathName (.status 404) r2 r3 = .ok
    ∧ forceCleanupMediaMTXPath pathName .netErr .netErr (.status 404) = .ok := by
  refine ⟨rfl, ?_, rfl⟩
  simp [forceCleanupMediaMTXPath]

/-- C9: every alert published by `PublishAlert` is keyed by the alert's
cameraId (preserving per-camera ordering), through a writer configured as
synchronous (`Async: false`), acknowledged (`RequiredAcks: RequireOne`) and
Gzip-compressed. -/
theorem publishAlert_keyed_sync_gzip (alert : FaceDetectionAlert) :
    (publishAlertMessage alert).key = alert.cameraID
    ∧ newKafkaProducerWriter.async = false
    ∧ newKafkaProducerWriter.requiredAcks = .requireOne
    ∧ newKafkaProducerWriter.compression = .gzip :=
  ⟨rfl, rfl, rfl, rfl⟩

/-- C10: path-name round trip.  For every non-empty camera ID, the gateway
path name is "camera_" + cameraID and `getCorrespondingCameraID` recovers the
original ID from it; for any path name that does not strictly extend the
"camera_" marker (including the bare "camera_" itself, whose length is not
greater than 7), the input is returned unchanged as a fallback. -/
theorem pathName_roundTrip (cameraID pathName : List Char) :
    (cameraID ≠ [] →
      getCorrespondingCameraID (getReencodedPathName cameraID) = cameraID)
    ∧ ((¬ ∃ rest, rest ≠ [] ∧ pathName = cameraPathMarker ++ rest) →
      getCorrespondingCameraID pathName = pathName)
    ∧ getCorrespondingCameraID cameraPathMarker = cameraPathMarker := by
  refine ⟨?_, ?_, rfl⟩
  · intro hne
    have hlen : (getReencodedPathName cameraID).length = 7 + cameraID.length := by
      simp [getReencodedPathName, cameraPathMarker]
      omega
    rw [getCorrespondingCameraID, if_pos]
    · rfl
    · constructor
      · rw [hlen]
        have : cameraID.length ≠ 0 := fun h => hne (List.eq_nil_of_length_eq_zero h)
        omega
      · rfl
  · intro hnotext
    rw [getCorrespondingCameraID, if_neg]
    rintro ⟨hlen, htake⟩
    refine hnotext ⟨pathName.drop 7, ?_, ?_⟩
    · intro hdrop
      have := List.length_drop 7 pathName
      rw [hdrop] at this
      simp at this
      omega
    · rw [← htake, List.take_append_drop]

/-- C6: a raw detection survives `DetectFaces` iff the image passed the input
guard and the detection passes all three independent gates (aspect ratio band,
face-size band, edge margin); a detection with aspect ratio 2.0 is rejected by
the aspect gate; a box within the 10-pixel margin of any edge is rejected by
the margin gate; and when no detection survives, no alert is constructed or
published. -/
theorem faceDetection_three_gates :
    (∀ (imgWidth imgHeight : Int) (raw : List Rect) (r : Rect),
      r ∈ (DetectFaces imgWidth imgHeight raw).2 ↔
        (¬(imgWidth < 50 ∨ imgHeight < 50) ∧ r ∈ raw ∧
          aspectRatioOK r = true ∧ faceSizeOK r = true ∧
          edgeMarginOK imgWidth imgHeight r = true))
    ∧ (∀ r : Rect, 0 < r.dy → r.dx = 2 * r.dy → aspectRatioOK r = false)
    ∧ (∀ (imgWidth imgHeight : Int) (r : Rect),
        (r.minX < 10 ∨ r.minY < 10 ∨ r.maxX > imgWidth - 10 ∨ r.maxY > imgHeight - 10) →
        edgeMarginOK imgWidth imgHeight r = false)
    ∧ (∀ (enabled : Bool) (cid cname : String) (th : ℚ) (now : Nat)
        (imgWidth imgHeight : Int) (raw : List Rect),
        (DetectFaces imgWidth imgHeight raw).1 = 0 →
        ProcessFrameForFaceDetection enabled cid cname th now imgWidth imgHeight raw
          = none) := by
  refine ⟨?_, ?_, ?_, ?_⟩
  · intro w h raw r
    rw [DetectFaces]
    by_cases hg : w < 50 ∨ h < 50
    · simp [hg]
    · simp only [hg, if_neg, not_false_eq_true, true_and]
      simp only [List.mem_filter, validFace, Bool.and_eq_true]
      tauto
  · intro r hdy hdx
    have hne : (r.dy : ℚ) ≠ 0 := Int.cast_ne_zero.mpr hdy.ne'
    have haspect : ((r.dx : ℚ) / (r.dy : ℚ)) = 2 := by
      rw [hdx]
      push_cast
      rw [mul_div_assoc, div_self hne, mul_one]
    have hgt : ((r.dx : ℚ) / (r.dy : ℚ)) > (5 : ℚ) / 4 := by
      rw [haspect]; norm_num
    simp [aspectRatioOK, hgt]
  · intro w h r hcase
    simp only [edgeMarginOK]
    rcases hcase with h1 | h1 | h1 | h1 <;> simp [h1]
  · intro enabled cid cname th now w h raw h0
    cases enabled <;> simp [ProcessFrameForFaceDetection, h0]

/-- Witness for C6: an aspect-ratio-2.0 box, a box 5 px from the left edge,
and a frame with no raw detections. -/
theorem faceDetection_three_gates_witness :
    aspectRatioOK { minX := 0, minY := 0, maxX := 120, maxY := 60 } = false
    ∧ edgeMarginOK 640 480 { minX := 5, minY := 100, maxX := 105, maxY := 200 } = false
    ∧ ProcessFrameForFaceDetection true "cam1" "front door" 1 0 640 480 [] = none := by
  exact ⟨faceDetection_three_gates.2.1 _ (by decide) (by decide),
    faceDetection_three_gates.2.2.1 640 480 _ (Or.inl (by decide)),
    faceDetection_three_gates.2.2.2 true "cam1" "front door" 1 0 640 480 [] (by decide)⟩

/-- Witness for C10 at the camera ID "c1" and the non-extending path names
"x" and "camera_". -/
theorem pathName_roundTrip_witness :
    getCorrespondingCameraID (getReencodedPathName ['c', '1']) = ['c', '1']
    ∧ getCorrespondingCameraID ['x'] = ['x'] := by
  refine ⟨(pathName_roundTrip ['c', '1'] ['x']).1 (by decide),
    (pathName_roundTrip ['c', '1'] ['x']).2.1 ?_⟩
  rintro ⟨rest, hne, heq⟩
  have : (['x'] : List Char).length = (cameraPathMarker ++ rest).length := by rw [heq]
  simp [cameraPathMarker] at this

end WebRtcDashboard
